import Mathlib

/-!
Verification of the `scripts/import_test_images.py` automation script.

The script is embedded shallowly: the static URL catalog becomes Lean lists,
the simulator-locator parsing becomes a pure scanner over the device-list
text, and the orchestrating `main` becomes a pure function from the outcomes
of the external calls (download, import, file removal) to the trace of
external calls performed, the lines printed, and the way the run ends.
-/

namespace Wanderlog

/-- The `copenhagen` entry of the `IMAGES` catalog (10 URLs). -/
def copenhagen_urls : List String := [
  "https://images.unsplash.com/photo-1513622470522-26c3c8a854bc?w=800",
  "https://images.unsplash.com/photo-1564507592333-c60657eea523?w=800",
  "https://images.unsplash.com/photo-1549573925-9975a04a9a2d?w=800",
  "https://images.unsplash.com/photo-1557093793-e196ae071479?w=800",
  "https://images.unsplash.com/photo-1588698301085-57f4c7c4a8cb?w=800",
  "https://images.unsplash.com/photo-1599946347371-68eb71b16afc?w=800",
  "https://images.unsplash.com/photo-1589992602626-fa7c8f1f8f01?w=800",
  "https://images.unsplash.com/photo-1526391751351-0a4df8d8e511?w=800",
  "https://images.unsplash.com/photo-1602491453631-e2a5ad90a131?w=800",
  "https://images.unsplash.com/photo-1554939437-ecc492c67b78?w=800"]

/-- The `paris` entry of the `IMAGES` catalog (10 URLs). -/
def paris_urls : List String := [
  "https://images.unsplash.com/photo-1502602898657-3e91760cbb34?w=800",
  "https://images.unsplash.com/photo-1499856871958-5b9627545d1a?w=800",
  "https://images.unsplash.com/photo-1511739001486-6bfe10ce785f?w=800",
  "https://images.unsplash.com/photo-1431274172761-fca41d930114?w=800",
  "https://images.unsplash.com/photo-1509439581779-6298f75bf6e5?w=800",
  "https://images.unsplash.com/photo-1522093007474-d86e9bf7ba6f?w=800",
  "https://images.unsplash.com/photo-1550340499-a6c60fc8287c?w=800",
  "https://images.unsplash.com/photo-1549144511-f099e773c147?w=800",
  "https://images.unsplash.com/photo-1505576391880-b3f9d713dc4f?w=800",
  "https://images.unsplash.com/photo-1500039436846-25ae2f11882e?w=800"]

/-- The `berlin` entry of the `IMAGES` catalog (10 URLs). -/
def berlin_urls : List String := [
  "https://images.unsplash.com/photo-1560969184-10fe8719e047?w=800",
  "https://images.unsplash.com/photo-1587330979470-3595ac045ab7?w=800",
  "https://images.unsplash.com/photo-1599946347371-68eb71b16afc?w=800",
  "https://images.unsplash.com/photo-1528728329032-2972f65dfb3f?w=800",
  "https://images.unsplash.com/photo-1566404791232-af9fe0ae8f8b?w=800",
  "https://images.unsplash.com/photo-1546726747-421c6d69c929?w=800",
  "https://images.unsplash.com/photo-1599098939570-fb3a1c88e999?w=800",
  "https://images.unsplash.com/photo-1587330979470-3595ac045ab7?w=800",
  "https://images.unsplash.com/photo-1560969184-10fe8719e047?w=800",
  "https://images.unsplash.com/photo-1528728329032-2972f65dfb3f?w=800"]

/-- The `IMAGES` dictionary, in Python insertion order. -/
def IMAGES : List (String × List String) :=
  [("copenhagen", copenhagen_urls), ("paris", paris_urls), ("berlin", berlin_urls)]

/-! ## Device locator: `get_simulator_id` -/

/-- Characters matched by the regex character class `[A-F0-9-]`. -/
def isIdChar (c : Char) : Bool :=
  ('A' ≤ c && c ≤ 'F') || ('0' ≤ c && c ≤ '9') || c == '-'

/-- Does `needle` occur at the start of `hay`?  (List-of-chars prefix test.) -/
def startsWithSub : List Char → List Char → Bool
  | [], _ => true
  | _ :: _, [] => false
  | a :: as, b :: bs => a == b && startsWithSub as bs

/-- Python `needle in hay` on strings viewed as char lists: substring containment. -/
def containsSub (needle : List Char) : List Char → Bool
  | [] => startsWithSub needle []
  | c :: rest => startsWithSub needle (c :: rest) || containsSub needle rest

/-- The marker scanned for by `get_simulator_id` (case-sensitive). -/
def bootedMarker : List Char := "Booted".data

/-- Attempt to match the regex `\(([A-F0-9-]+)\)` at the start of the list:
an opening parenthesis, a nonempty run of `[A-F0-9-]` characters, then a
closing parenthesis.  Returns the captured group. -/
def matchParen : List Char → Option String
  | [] => none
  | c :: rest =>
    if c = '(' ∧ (rest.takeWhile isIdChar) ≠ [] ∧ (rest.dropWhile isIdChar).head? = some ')'
    then some (String.mk (rest.takeWhile isIdChar))
    else none

/-- `re.search` of `\(([A-F0-9-]+)\)`: the leftmost position where the pattern
matches, scanning positions left to right. -/
def searchParen : List Char → Option String
  | [] => none
  | c :: rest =>
    match matchParen (c :: rest) with
    | some s => some s
    | none => searchParen rest

/-- Python `str.split` on a newline: the list of lines, keeping empty pieces. -/
def splitOnNL : List Char → List (List Char)
  | [] => [[]]
  | c :: rest =>
    if c = '\n' then [] :: splitOnNL rest
    else
      match splitOnNL rest with
      | l :: ls => (c :: l) :: ls
      | [] => [[c]]

/-- The loop of `get_simulator_id`: scan the lines in order; on a line
containing `Booted`, return the regex capture if the regex matches, otherwise
keep scanning; return `none` after the last line. -/
def scanLines : List (List Char) → Option String
  | [] => none
  | line :: rest =>
    if containsSub bootedMarker line then
      match searchParen line with
      | some s => some s
      | none => scanLines rest
    else scanLines rest

/-- Outcome of the `xcrun simctl list devices` subprocess: its captured
standard output, or a non-zero exit (`subprocess.CalledProcessError`). -/
inductive ListDevicesResult where
  | ok (stdout : String)
  | fail
deriving DecidableEq

/-- `get_simulator_id()`: on a failed query return `None`; otherwise scan the
output lines for a `Booted` line with a `\(([A-F0-9-]+)\)` match. -/
def get_simulator_id : ListDevicesResult → Option String
  | ListDevicesResult.fail => none
  | ListDevicesResult.ok out => scanLines (splitOnNL out.data)

/-! ## The orchestrator `main` -/

/-- The external calls the script can perform, in the order they happen. -/
inductive Event where
  | listDevices
  | makedirs (path : String)
  | urlretrieve (url : String) (path : String)
  | addmedia (simulator_id : String) (path : String)
  | remove (path : String)
  | rmdir (path : String)
deriving DecidableEq

/-- How a run of `main` ends. -/
inductive RunResult where
  | exitNoDevice
  | uncaughtError
  | completed (total : Nat)
deriving DecidableEq

/-- Process exit status: `sys.exit(1)` on the no-device path, 1 for a Python
process killed by an uncaught exception, 0 on normal return from `main`. -/
def exitCode : RunResult → Nat
  | RunResult.exitNoDevice => 1
  | RunResult.uncaughtError => 1
  | RunResult.completed _ => 0

/-- The hard-coded temporary directory. -/
def temp_dir : String := "/tmp/wanderlog_test_images"

/-- Python `str.title()` (for the ASCII city names used here): the first
letter of each alphabetic run uppercased, the rest lowercased. -/
def titleAux : Bool → List Char → List Char
  | _, [] => []
  | prevAlpha, c :: rest =>
    if c.isAlpha then
      (if prevAlpha then c.toLower else c.toUpper) :: titleAux true rest
    else c :: titleAux false rest

/-- Python `city.title()`. -/
def pyTitle (s : String) : String := String.mk (titleAux false s.data)

/-- The temporary filename built for a catalog item:
`f"{temp_dir}/{city}_{i}.jpg"` with `i` the 1-based index. -/
def filename (city : String) (i : Nat) : String :=
  temp_dir ++ "/" ++ city ++ "_" ++ toString i ++ ".jpg"

/-- `download_image(url, filepath)` given the outcome of `urlretrieve`
(`none`: returned normally; `some e`: raised an exception rendering as `e`).
Produces the call performed, the diagnostics printed, and the return value;
every exception is caught, printed, and turned into `False`. -/
def download_image (outcome : Option String) (url filepath : String) :
    Event × List String × Bool :=
  match outcome with
  | none => (Event.urlretrieve url filepath, [], true)
  | some e => (Event.urlretrieve url filepath, ["  ❌ Failed to download: " ++ e], false)

/-- `import_to_simulator(simulator_id, filepath)` given the outcome of the
`xcrun simctl addmedia` subprocess (`none`: exit status 0; `some e`: a
`subprocess.CalledProcessError` rendering as `e`).  The error is caught,
printed, and turned into `False`. -/
def import_to_simulator (outcome : Option String) (simulator_id filepath : String) :
    Event × List String × Bool :=
  match outcome with
  | none => (Event.addmedia simulator_id filepath, [], true)
  | some e => (Event.addmedia simulator_id filepath, ["  ❌ Failed to import: " ++ e], false)

/-- Outcomes of the external world for one run, keyed by the catalog position
`(city, 1-based index)` of the call.  `download`/`importRes` are as in
`download_image`/`import_to_simulator`; `removeOk c i = false` means the
(unguarded) `os.remove` call for that item raises; `rmdirOk = false` means
the final `os.rmdir` raises (it is wrapped in `try/except: pass`). -/
structure Oracles where
  download : String → Nat → Option String
  importRes : String → Nat → Option String
  removeOk : String → Nat → Bool
  rmdirOk : Bool

/-- The body of the inner loop of `main` for one item `(i, url)` of `city`:
print the progress line, download; on success import (counting a success),
then call `os.remove`, whose failure is an uncaught exception.  Returns
(events, printed lines, counter increment, uncaught-exception flag). -/
def processItem (d im : String → Nat → Option String) (rm : String → Nat → Bool)
    (sim city : String) (i : Nat) (url : String) :
    List Event × List String × Nat × Bool :=
  let fn := filename city i
  let header := "  [" ++ toString i ++ "/10] Downloading " ++ pyTitle city ++ " image..."
  let dres := download_image (d city i) url fn
  if dres.2.2 then
    let ires := import_to_simulator (im city i) sim fn
    ([dres.1, ires.1, Event.remove fn],
     header :: dres.2.1 ++ "  ✅ Downloaded" :: ires.2.1 ++
       (if ires.2.2 then ["  ✅ Imported to simulator"] else []),
     (if ires.2.2 then 1 else 0),
     !(rm city i))
  else
    ([dres.1], header :: dres.2.1, 0, false)

/-- The inner loop of `main` over the enumerated URL list of one city.  An
uncaught exception aborts the loop and is propagated via the final flag. -/
def processCity (d im : String → Nat → Option String) (rm : String → Nat → Bool)
    (sim city : String) : List (Nat × String) → List Event × List String × Nat × Bool
  | [] => ([], [], 0, false)
  | (i, url) :: rest =>
    let r := processItem d im rm sim city i url
    if r.2.2.2 then (r.1, r.2.1, r.2.2.1, true)
    else
      let rs := processCity d im rm sim city rest
      (r.1 ++ rs.1, r.2.1 ++ rs.2.1, r.2.2.1 + rs.2.2.1, rs.2.2.2)

/-- The outer loop of `main` over `IMAGES.items()`: per-city header line, the
inner loop, and the blank line printed after a city completes. -/
def processCities (d im : String → Nat → Option String) (rm : String → Nat → Bool)
    (sim : String) : List (String × List String) → List Event × List String × Nat × Bool
  | [] => ([], [], 0, false)
  | (city, urls) :: rest =>
    let header := "📸 Processing " ++ pyTitle city ++ " images..."
    let r := processCity d im rm sim city (List.enumFrom 1 urls)
    if r.2.2.2 then (r.1, header :: r.2.1, r.2.2.1, true)
    else
      let rs := processCities d im rm sim rest
      (r.1 ++ rs.1, (header :: r.2.1 ++ [""]) ++ rs.2.1, r.2.2.1 + rs.2.2.1, rs.2.2.2)

/-- Python truthiness test `not simulator_id` on an `Optional[str]`. -/
def pyFalsy : Option String → Bool
  | none => true
  | some s => s.isEmpty

/-- The whole of `main()`: locate the booted simulator (exiting with status 1
when `not simulator_id`), create the temporary directory, run the two nested
loops, then best-effort-remove the directory and print the summary.  Returns
the trace of external calls, the printed lines, and how the run ends. -/
def main_run (devList : ListDevicesResult) (o : Oracles) :
    List Event × List String × RunResult :=
  let startOut := "🚀 Starting to import test images to iOS Simulator...\n"
  let simId := get_simulator_id devList
  if pyFalsy simId then
    ([Event.listDevices],
     [startOut, "❌ No booted iOS Simulator found!",
      "Please start the iOS Simulator first, then run this script again."],
     RunResult.exitNoDevice)
  else
    let sim := simId.getD ""
    let outHead := [startOut, "✅ Found simulator: " ++ sim ++ "\n",
                    "📁 Created temp directory: " ++ temp_dir ++ "\n"]
    let r := processCities o.download o.importRes o.removeOk sim IMAGES
    if r.2.2.2 then
      (Event.listDevices :: Event.makedirs temp_dir :: r.1, outHead ++ r.2.1,
       RunResult.uncaughtError)
    else
      (Event.listDevices :: Event.makedirs temp_dir :: r.1 ++ [Event.rmdir temp_dir],
       outHead ++ r.2.1 ++
         ["\n✨ Done! Imported " ++ toString r.2.2.1 ++ "/30 images to iOS Simulator.",
          "📱 Open the Photos app in your simulator to see them.\n"],
       RunResult.completed r.2.2.1)

/-! ## Derived views of the catalog -/

/-- The catalog flattened to `(city, 1-based index, url)` triples, in
processing order. -/
def catalogItems : List (String × Nat × String) :=
  IMAGES.flatMap fun p => (List.enumFrom 1 p.2).map fun q => (p.1, q.1, q.2)

/-- Did both the download and the import succeed for the catalog position
`(city, i)` under the oracles `o`? -/
def bothSucceed (o : Oracles) (city : String) (i : Nat) : Bool :=
  (o.download city i).isNone && (o.importRes city i).isNone

/-- The number of catalog items whose download and import both succeed. -/
def successCount (o : Oracles) : Nat :=
  (catalogItems.filter fun t => bothSucceed o t.1 t.2.1).length

/-! ## Concrete fixtures used in witnesses and counterexamples -/

/-- A device-list output with one booted device. -/
def devOk : ListDevicesResult :=
  ListDevicesResult.ok "    iPhone 15 (ABCD-1234) (Booted)"

/-- Oracles under which every external call succeeds. -/
def oAll : Oracles :=
  { download := fun _ _ => none, importRes := fun _ _ => none,
    removeOk := fun _ _ => true, rmdirOk := true }

/-- Oracles under which downloads and imports succeed but every per-item
`os.remove` raises. -/
def oRemoveFail : Oracles :=
  { download := fun _ _ => none, importRes := fun _ _ => none,
    removeOk := fun _ _ => false, rmdirOk := true }

/-- Oracles under which every download raises. -/
def oDlFail : Oracles :=
  { download := fun _ _ => some "err", importRes := fun _ _ => none,
    removeOk := fun _ _ => true, rmdirOk := true }

/-- Oracles under which downloads succeed but every `addmedia` call fails. -/
def oImFail : Oracles :=
  { download := fun _ _ => none, importRes := fun _ _ => some "imerr",
    removeOk := fun _ _ => true, rmdirOk := true }

/-! ## Lemmas about the device locator -/

theorem matchParen_sound {l : List Char} {id : String} (h : matchParen l = some id) :
    ∃ post, l = '(' :: (id.data ++ ')' :: post) ∧ id.data ≠ [] ∧
      ∀ c ∈ id.data, isIdChar c = true := by
  match l with
  | [] => simp [matchParen] at h
  | c :: rest =>
    simp only [matchParen] at h
    split at h
    · rename_i hcond
      obtain ⟨hc, hne, hhd⟩ := hcond
      injection h with hid
      have hdata : id.data = List.takeWhile isIdChar rest := by rw [← hid]
      rcases hd : List.dropWhile isIdChar rest with _ | ⟨x, t⟩
      · rw [hd] at hhd; simp at hhd
      · rw [hd] at hhd
        simp only [List.head?] at hhd
        injection hhd with hx
        subst hx hc
        have hsplit := List.takeWhile_append_dropWhile (p := isIdChar) (l := rest)
        rw [hd] at hsplit
        refine ⟨t, ?_, ?_, ?_⟩
        · rw [hdata]
          exact congrArg (List.cons '(') hsplit.symm
        · rw [hdata]; exact hne
        · intro ch hch
          rw [hdata] at hch
          exact List.mem_takeWhile_imp hch
    · exact absurd h (by simp)

theorem searchParen_sound {l : List Char} {id : String} (h : searchParen l = some id) :
    ∃ pre post, l = pre ++ '(' :: (id.data ++ ')' :: post) ∧ id.data ≠ [] ∧
      ∀ c ∈ id.data, isIdChar c = true := by
  induction l with
  | nil => simp [searchParen] at h
  | cons c rest ih =>
    rcases hm : matchParen (c :: rest) with _ | s
    · rw [searchParen, hm] at h
      obtain ⟨pre, post, heq, hne, hall⟩ := ih h
      exact ⟨c :: pre, post, by simp [heq], hne, hall⟩
    · rw [searchParen, hm] at h
      injection h with hs
      subst hs
      obtain ⟨post, heq, hne, hall⟩ := matchParen_sound hm
      exact ⟨[], post, by simpa using heq, hne, hall⟩

theorem scanLines_some {ls : List (List Char)} {id : String}
    (h : scanLines ls = some id) :
    ∃ pre line post, ls = pre ++ line :: post ∧
      (∀ l ∈ pre, containsSub bootedMarker l = false ∨ searchParen l = none) ∧
      containsSub bootedMarker line = true ∧ searchParen line = some id := by
  induction ls with
  | nil => simp [scanLines] at h
  | cons line rest ih =>
    by_cases hb : containsSub bootedMarker line
    · rcases hs : searchParen line with _ | s
      · rw [scanLines, if_pos hb, hs] at h
        obtain ⟨pre, mid, post, heq, hpre, hbm, hsm⟩ := ih h
        refine ⟨line :: pre, mid, post, by simp [heq], ?_, hbm, hsm⟩
        intro l hl
        rcases List.mem_cons.mp hl with hl | hl
        · subst hl; exact Or.inr hs
        · exact hpre l hl
      · rw [scanLines, if_pos hb, hs] at h
        injection h with heq
        subst heq
        exact ⟨[], line, rest, by simp, by simp, hb, hs⟩
    · rw [scanLines, if_neg hb] at h
      obtain ⟨pre, mid, post, heq, hpre, hbm, hsm⟩ := ih h
      refine ⟨line :: pre, mid, post, by simp [heq], ?_, hbm, hsm⟩
      intro l hl
      rcases List.mem_cons.mp hl with hl | hl
      · subst hl; exact Or.inl (by simpa using hb)
      · exact hpre l hl

theorem scanLines_none {ls : List (List Char)}
    (h : ∀ l ∈ ls, containsSub bootedMarker l = true → searchParen l = none) :
    scanLines ls = none := by
  induction ls with
  | nil => simp [scanLines]
  | cons line rest ih =>
    by_cases hb : containsSub bootedMarker line
    · rw [scanLines, if_pos hb, h line (by simp) hb]
      exact ih fun l hl => h l (by simp [hl])
    · rw [scanLines, if_neg hb]
      exact ih fun l hl => h l (by simp [hl])

/-! ## Lemmas about the orchestrator -/

theorem processItem_events (d im : String → Nat → Option String) (rm : String → Nat → Bool)
    (sim city : String) (i : Nat) (url : String) :
    (processItem d im rm sim city i url).1 =
      if (d city i).isNone then
        [Event.urlretrieve url (filename city i), Event.addmedia sim (filename city i),
         Event.remove (filename city i)]
      else [Event.urlretrieve url (filename city i)] := by
  cases hd : d city i <;> cases him : im city i <;>
    simp [processItem, download_image, import_to_simulator, hd, him]

theorem processItem_inc (d im : String → Nat → Option String) (rm : String → Nat → Bool)
    (sim city : String) (i : Nat) (url : String) :
    (processItem d im rm sim city i url).2.2.1 =
      if ((d city i).isNone && (im city i).isNone) then 1 else 0 := by
  cases hd : d city i <;> cases him : im city i <;>
    simp [processItem, download_image, import_to_simulator, hd, him]

theorem processItem_raised (d im : String → Nat → Option String) (rm : String → Nat → Bool)
    (sim city : String) (i : Nat) (url : String) :
    (processItem d im rm sim city i url).2.2.2 = ((d city i).isNone && !(rm city i)) := by
  cases hd : d city i <;> cases him : im city i <;>
    simp [processItem, download_image, import_to_simulator, hd, him]

theorem processCity_total {d im : String → Nat → Option String} {rm : String → Nat → Bool}
    {sim city : String} {items : List (Nat × String)}
    (h : (processCity d im rm sim city items).2.2.2 = false) :
    (processCity d im rm sim city items).2.2.1 =
      (items.filter fun p => (d city p.1).isNone && (im city p.1).isNone).length := by
  induction items with
  | nil => simp [processCity]
  | cons p rest ih =>
    obtain ⟨i, url⟩ := p
    cases hr : (processItem d im rm sim city i url).2.2.2
    · rw [processCity] at h ⊢
      simp only [hr, Bool.false_eq_true, if_false] at h ⊢
      rw [processItem_inc, ih h, List.filter_cons]
      cases hp : ((d city i).isNone && (im city i).isNone) <;> simp [hp, Nat.add_comm]
    · rw [processCity] at h
      simp [hr] at h

theorem processCity_noRaise {d im : String → Nat → Option String} {rm : String → Nat → Bool}
    {sim city : String} {items : List (Nat × String)} (hrm : ∀ c i, rm c i = true) :
    (processCity d im rm sim city items).2.2.2 = false := by
  induction items with
  | nil => simp [processCity]
  | cons p rest ih =>
    obtain ⟨i, url⟩ := p
    have hr : (processItem d im rm sim city i url).2.2.2 = false := by
      rw [processItem_raised, hrm city i]; simp
    rw [processCity]
    simp only [hr, Bool.false_eq_true, if_false]
    exact ih

theorem mem_processCity_events {d im : String → Nat → Option String} {rm : String → Nat → Bool}
    {sim city : String} {items : List (Nat × String)} {ev : Event}
    (h : ev ∈ (processCity d im rm sim city items).1) :
    ∃ i url, (i, url) ∈ items ∧
      (ev = Event.urlretrieve url (filename city i) ∨
       ((d city i).isNone = true ∧
         (ev = Event.addmedia sim (filename city i) ∨ ev = Event.remove (filename city i)))) := by
  induction items with
  | nil => simp [processCity] at h
  | cons p rest ih =>
    obtain ⟨i, url⟩ := p
    have hitem : ev ∈ (processItem d im rm sim city i url).1 →
        ev = Event.urlretrieve url (filename city i) ∨
        ((d city i).isNone = true ∧
          (ev = Event.addmedia sim (filename city i) ∨ ev = Event.remove (filename city i))) := by
      intro hm
      rw [processItem_events] at hm
      cases hd : (d city i).isNone <;> rw [hd] at hm <;> simp at hm
      · exact Or.inl hm
      · rcases hm with hm | hm | hm
        · exact Or.inl hm
        · exact Or.inr ⟨rfl, Or.inl hm⟩
        · exact Or.inr ⟨rfl, Or.inr hm⟩
    cases hr : (processItem d im rm sim city i url).2.2.2
    · rw [processCity] at h
      simp only [hr, Bool.false_eq_true, if_false] at h
      rcases List.mem_append.mp h with h | h
      · exact ⟨i, url, by simp, hitem h⟩
      · obtain ⟨i2, url2, hmem, hcase⟩ := ih h
        exact ⟨i2, url2, List.mem_cons_of_mem _ hmem, hcase⟩
    · rw [processCity] at h
      simp only [hr, if_true] at h
      exact ⟨i, url, by simp, hitem h⟩

theorem processCities_total {d im : String → Nat → Option String} {rm : String → Nat → Bool}
    {sim : String} {l : List (String × List String)}
    (h : (processCities d im rm sim l).2.2.2 = false) :
    (processCities d im rm sim l).2.2.1 =
      ((l.flatMap fun p => (List.enumFrom 1 p.2).map fun q => (p.1, q.1, q.2)).filter
        fun t => (d t.1 t.2.1).isNone && (im t.1 t.2.1).isNone).length := by
  induction l with
  | nil => simp [processCities]
  | cons p rest ih =>
    obtain ⟨city, urls⟩ := p
    cases hr : (processCity d im rm sim city (List.enumFrom 1 urls)).2.2.2
    · rw [processCities] at h ⊢
      simp only [hr, Bool.false_eq_true, if_false] at h ⊢
      rw [processCity_total hr, ih h]
      rw [List.flatMap_cons, List.filter_append, List.length_append, List.filter_map,
        List.length_map]
      rfl
    · rw [processCities] at h
      simp [hr] at h

theorem processCities_noRaise {d im : String → Nat → Option String} {rm : String → Nat → Bool}
    {sim : String} {l : List (String × List String)} (hrm : ∀ c i, rm c i = true) :
    (processCities d im rm sim l).2.2.2 = false := by
  induction l with
  | nil => simp [processCities]
  | cons p rest ih =>
    obtain ⟨city, urls⟩ := p
    rw [processCities]
    simp only [processCity_noRaise hrm, Bool.false_eq_true, if_false]
    exact ih

theorem mem_processCities_events {d im : String → Nat → Option String} {rm : String → Nat → Bool}
    {sim : String} {l : List (String × List String)} {ev : Event}
    (h : ev ∈ (processCities d im rm sim l).1) :
    ∃ city urls, (city, urls) ∈ l ∧ ∃ i url, (i, url) ∈ List.enumFrom 1 urls ∧
      (ev = Event.urlretrieve url (filename city i) ∨
       ((d city i).isNone = true ∧
         (ev = Event.addmedia sim (filename city i) ∨ ev = Event.remove (filename city i)))) := by
  induction l with
  | nil => simp [processCities] at h
  | cons p rest ih =>
    obtain ⟨city, urls⟩ := p
    cases hr : (processCity d im rm sim city (List.enumFrom 1 urls)).2.2.2
    · rw [processCities] at h
      simp only [hr, Bool.false_eq_true, if_false] at h
      rcases List.mem_append.mp h with h | h
      · obtain ⟨i, url, hm, hc⟩ := mem_processCity_events h
        exact ⟨city, urls, by simp, i, url, hm, hc⟩
      · obtain ⟨c2, u2, hm, hrest⟩ := ih h
        exact ⟨c2, u2, List.mem_cons_of_mem _ hm, hrest⟩
    · rw [processCities] at h
      simp only [hr, if_true] at h
      obtain ⟨i, url, hm, hc⟩ := mem_processCity_events h
      exact ⟨city, urls, by simp, i, url, hm, hc⟩

theorem main_run_completed {devList : ListDevicesResult} {o : Oracles} {tot : Nat}
    {evs : List Event} {outs : List String}
    (h : main_run devList o = (evs, outs, RunResult.completed tot)) :
    pyFalsy (get_simulator_id devList) = false ∧
    (processCities o.download o.importRes o.removeOk
      ((get_simulator_id devList).getD "") IMAGES).2.2.2 = false ∧
    tot = (processCities o.download o.importRes o.removeOk
      ((get_simulator_id devList).getD "") IMAGES).2.2.1 := by
  cases hp : pyFalsy (get_simulator_id devList)
  · cases hr : (processCities o.download o.importRes o.removeOk
        ((get_simulator_id devList).getD "") IMAGES).2.2.2
    · refine ⟨rfl, rfl, ?_⟩
      rw [main_run] at h
      simp only [hp, Bool.false_eq_true, if_false, hr] at h
      have h3 := congrArg (fun t => t.2.2) h
      simp only at h3
      exact (RunResult.completed.injEq _ _ ▸ h3 : _ = tot).symm
    · rw [main_run] at h
      simp only [hp, Bool.false_eq_true, if_false, hr, if_true] at h
      have h3 := congrArg (fun t => t.2.2) h
      simp at h3
  · rw [main_run] at h
    simp only [hp, if_true] at h
    have h3 := congrArg (fun t => t.2.2) h
    simp at h3

theorem mem_main_events {devList : ListDevicesResult} {o : Oracles} {ev : Event}
    (h : ev ∈ (main_run devList o).1) :
    ev = Event.listDevices ∨ ev = Event.makedirs temp_dir ∨ ev = Event.rmdir temp_dir ∨
    ∃ city urls, (city, urls) ∈ IMAGES ∧ ∃ i url, (i, url) ∈ List.enumFrom 1 urls ∧
      (ev = Event.urlretrieve url (filename city i) ∨
       ((o.download city i).isNone = true ∧
        (ev = Event.addmedia ((get_simulator_id devList).getD "") (filename city i) ∨
         ev = Event.remove (filename city i)))) := by
  cases hp : pyFalsy (get_simulator_id devList)
  · cases hr : (processCities o.download o.importRes o.removeOk
        ((get_simulator_id devList).getD "") IMAGES).2.2.2
    · rw [main_run] at h
      simp only [hp, Bool.false_eq_true, if_false, hr] at h
      simp only [List.mem_cons, List.mem_append, List.mem_singleton] at h
      rcases h with (h | h | h) | h | h
      · exact Or.inl h
      · exact Or.inr (Or.inl h)
      · exact Or.inr (Or.inr (Or.inr (mem_processCities_events h)))
      · exact Or.inr (Or.inr (Or.inl h))
      · exact absurd h (by simp)
    · rw [main_run] at h
      simp only [hp, Bool.false_eq_true, if_false, hr, if_true] at h
      simp only [List.mem_cons] at h
      rcases h with h | h | h
      · exact Or.inl h
      · exact Or.inr (Or.inl h)
      · exact Or.inr (Or.inr (Or.inr (mem_processCities_events h)))
  · rw [main_run] at h
    simp only [hp, if_true] at h
    simp only [List.mem_singleton] at h
    exact Or.inl h

/-! ## The catalog's filenames are pairwise distinct -/

theorem fnNodup : (catalogItems.map fun t => filename t.1 t.2.1).Nodup := by decide

theorem filename_inj_on {a b : String × Nat × String}
    (ha : a ∈ catalogItems) (hb : b ∈ catalogItems)
    (hf : filename a.1 a.2.1 = filename b.1 b.2.1) : a = b :=
  List.inj_on_of_nodup_map fnNodup ha hb hf

theorem mem_catalogItems {city : String} {urls : List String} {i : Nat} {url : String}
    (hc : (city, urls) ∈ IMAGES) (hi : (i, url) ∈ List.enumFrom 1 urls) :
    (city, i, url) ∈ catalogItems := by
  unfold catalogItems
  exact List.mem_flatMap.mpr ⟨(city, urls), hc, List.mem_map.mpr ⟨(i, url), hi, rfl⟩⟩

/-- Helper: any `addmedia` or `remove` event in the run whose path is the
filename of a catalog item implies that item's download succeeded. -/
theorem touch_implies_download_ok {devList : ListDevicesResult} {o : Oracles}
    {city : String} {i : Nat} {url : String} (hmem : (city, i, url) ∈ catalogItems)
    {ev : Event} (hev : ev ∈ (main_run devList o).1)
    (hform : ev = Event.remove (filename city i) ∨
      ∃ s, ev = Event.addmedia s (filename city i)) :
    (o.download city i).isNone = true := by
  rcases mem_main_events hev with h1 | h1 | h1 |
    ⟨city2, urls2, hc2, i2, url2, hi2, hcase⟩
  · subst h1; rcases hform with hf | ⟨s, hf⟩ <;> simp at hf
  · subst h1; rcases hform with hf | ⟨s, hf⟩ <;> simp at hf
  · subst h1
    rcases hform with hf | ⟨s, hf⟩ <;> simp at hf
  · have hmem2 : (city2, i2, url2) ∈ catalogItems := mem_catalogItems hc2 hi2
    have hkey : filename city2 i2 = filename city i → (city2, i2, url2) = (city, i, url) :=
      fun hf => filename_inj_on hmem2 hmem hf
    rcases hform with hf | ⟨s, hf⟩
    · subst hf
      rcases hcase with hc | ⟨hno, hc | hc⟩
      · simp at hc
      · simp at hc
      · simp only [Event.remove.injEq] at hc
        have := hkey hc.symm
        injection this with e1 e2
        injection e2 with e3 e4
        rw [← e1, ← e3]
        exact hno
    · subst hf
      rcases hcase with hc | ⟨hno, hc | hc⟩
      · simp at hc
      · simp only [Event.addmedia.injEq] at hc
        have := hkey hc.2.symm
        injection this with e1 e2
        injection e2 with e3 e4
        rw [← e1, ← e3]
        exact hno
      · simp at hc

/-! ## The claims -/

/-- C1: for every run that reaches the final summary, the reported imported
total equals the number of catalog items for which both the download and
the import succeeded, and this total never exceeds the catalog size 30. -/
theorem imported_total_correct (devList : ListDevicesResult) (o : Oracles)
    (evs : List Event) (outs : List String) (tot : Nat)
    (h : main_run devList o = (evs, outs, RunResult.completed tot)) :
    tot = successCount o ∧ tot ≤ 30 := by
  obtain ⟨hp, hr, htot⟩ := main_run_completed h
  rw [htot, processCities_total hr]
  refine ⟨rfl, ?_⟩
  exact le_trans (List.length_filter_le _ _) (by decide)

/-- Witness for `imported_total_correct`: the all-success run completes with
total 30. -/
theorem imported_total_correct_witness : 30 = successCount oAll ∧ 30 ≤ 30 :=
  imported_total_correct devOk oAll _ _ 30 rfl

/-- C2: when the download of a catalog item fails, that item's step performs
only the failed download call and prints the diagnostic; the importer is
never invoked on that item's file, the file is never removed, the counter is
not incremented, and the loop proceeds to the remaining items unchanged. -/
theorem download_fail_skips_item (devList : ListDevicesResult) (o : Oracles)
    (city : String) (i : Nat) (url e : String)
    (h : o.download city i = some e) (hmem : (city, i, url) ∈ catalogItems) :
    (∀ sim, processItem o.download o.importRes o.removeOk sim city i url =
      ([Event.urlretrieve url (filename city i)],
       ["  [" ++ toString i ++ "/10] Downloading " ++ pyTitle city ++ " image...",
        "  ❌ Failed to download: " ++ e], 0, false)) ∧
    (∀ sim rest, processCity o.download o.importRes o.removeOk sim city ((i, url) :: rest) =
      (Event.urlretrieve url (filename city i) ::
        (processCity o.download o.importRes o.removeOk sim city rest).1,
       ("  [" ++ toString i ++ "/10] Downloading " ++ pyTitle city ++ " image...") ::
         ("  ❌ Failed to download: " ++ e) ::
         (processCity o.download o.importRes o.removeOk sim city rest).2.1,
       (processCity o.download o.importRes o.removeOk sim city rest).2.2.1,
       (processCity o.download o.importRes o.removeOk sim city rest).2.2.2)) ∧
    (∀ s, Event.addmedia s (filename city i) ∉ (main_run devList o).1) ∧
    Event.remove (filename city i) ∉ (main_run devList o).1 := by
  have hitem : ∀ sim, processItem o.download o.importRes o.removeOk sim city i url =
      ([Event.urlretrieve url (filename city i)],
       ["  [" ++ toString i ++ "/10] Downloading " ++ pyTitle city ++ " image...",
        "  ❌ Failed to download: " ++ e], 0, false) := by
    intro sim
    simp [processItem, download_image, h]
  refine ⟨hitem, ?_, ?_, ?_⟩
  · intro sim rest
    rw [processCity, hitem sim]
    simp
  · intro s habs
    have := touch_implies_download_ok hmem habs (Or.inr ⟨s, rfl⟩)
    rw [h] at this
    simp at this
  · intro habs
    have := touch_implies_download_ok hmem habs (Or.inl rfl)
    rw [h] at this
    simp at this

/-- Witness for `download_fail_skips_item`: with every download failing, the
first Copenhagen item's file is never removed. -/
theorem download_fail_skips_item_witness :
    Event.remove (filename "copenhagen" 1) ∉ (main_run devOk oDlFail).1 :=
  (download_fail_skips_item devOk oDlFail "copenhagen" 1
    "https://images.unsplash.com/photo-1513622470522-26c3c8a854bc?w=800" "err"
    rfl (by decide)).2.2.2

/-- C3: when the download succeeds but the import fails, the temporary file
for the item is still removed — removal is attempted whenever the download
succeeded, whatever the import outcome — the counter is not incremented,
and (the removal call returning normally) the loop proceeds to the next
item with counter unchanged. -/
theorem import_fail_still_removes (o : Oracles) (sim city : String) (i : Nat) (url e : String)
    (h1 : o.download city i = none) (h2 : o.importRes city i = some e) :
    Event.remove (filename city i) ∈
      (processItem o.download o.importRes o.removeOk sim city i url).1 ∧
    (processItem o.download o.importRes o.removeOk sim city i url).2.2.1 = 0 ∧
    (∀ im2 : String → Nat → Option String,
      Event.remove (filename city i) ∈ (processItem o.download im2 o.removeOk sim city i url).1) ∧
    (o.removeOk city i = true → ∀ rest,
      (processCity o.download o.importRes o.removeOk sim city ((i, url) :: rest)).2.2.1 =
        (processCity o.download o.importRes o.removeOk sim city rest).2.2.1 ∧
      (processCity o.download o.importRes o.removeOk sim city ((i, url) :: rest)).2.2.2 =
        (processCity o.download o.importRes o.removeOk sim city rest).2.2.2) := by
  have hmem : ∀ im2 : String → Nat → Option String,
      Event.remove (filename city i) ∈ (processItem o.download im2 o.removeOk sim city i url).1 := by
    intro im2
    rw [processItem_events]
    simp [h1]
  refine ⟨hmem _, ?_, hmem, ?_⟩
  · rw [processItem_inc]
    simp [h1, h2]
  · intro hrm rest
    have hr : (processItem o.download o.importRes o.removeOk sim city i url).2.2.2 = false := by
      rw [processItem_raised, hrm]
      simp
    have hinc : (processItem o.download o.importRes o.removeOk sim city i url).2.2.1 = 0 := by
      rw [processItem_inc]
      simp [h1, h2]
    rw [processCity]
    simp only [hr, Bool.false_eq_true, if_false, hinc]
    simp

/-- Witness for `import_fail_still_removes`: with imports failing, the file
of Paris item 3 is still removed and the counter increment is 0. -/
theorem import_fail_still_removes_witness :
    Event.remove (filename "paris" 3) ∈
      (processItem oImFail.download oImFail.importRes oImFail.removeOk "SIM" "paris" 3 "u").1 ∧
    (processItem oImFail.download oImFail.importRes oImFail.removeOk "SIM" "paris" 3 "u").2.2.1 = 0 :=
  ⟨(import_fail_still_removes oImFail "SIM" "paris" 3 "u" "imerr" rfl rfl).1,
   (import_fail_still_removes oImFail "SIM" "paris" 3 "u" "imerr" rfl rfl).2.1⟩

/-- C4: when the device locator reports absence, the run prints the two
error lines instructing the operator to start a simulator, performs no
download, import, or directory-creation call, and exits with status 1. -/
theorem no_device_aborts (devList : ListDevicesResult) (o : Oracles)
    (h : get_simulator_id devList = none) :
    main_run devList o = ([Event.listDevices],
      ["🚀 Starting to import test images to iOS Simulator...\n",
       "❌ No booted iOS Simulator found!",
       "Please start the iOS Simulator first, then run this script again."],
      RunResult.exitNoDevice) ∧
    exitCode (main_run devList o).2.2 = 1 ∧
    (∀ u p, Event.urlretrieve u p ∉ (main_run devList o).1) ∧
    (∀ s p, Event.addmedia s p ∉ (main_run devList o).1) ∧
    (∀ p, Event.makedirs p ∉ (main_run devList o).1) := by
  have hp : pyFalsy (get_simulator_id devList) = true := by rw [h]; rfl
  have hmain : main_run devList o = ([Event.listDevices],
      ["🚀 Starting to import test images to iOS Simulator...\n",
       "❌ No booted iOS Simulator found!",
       "Please start the iOS Simulator first, then run this script again."],
      RunResult.exitNoDevice) := by
    rw [main_run]
    simp [hp]
  refine ⟨hmain, by rw [hmain]; rfl, ?_, ?_, ?_⟩ <;> intros <;> rw [hmain] <;> simp

/-- Witness for `no_device_aborts`: a failed device query exits with 1. -/
theorem no_device_aborts_witness :
    exitCode (main_run ListDevicesResult.fail oAll).2.2 = 1 :=
  (no_device_aborts ListDevicesResult.fail oAll rfl).2.1

/-- C5: the device locator returns `none` when the list-devices command
fails; any identifier it returns comes from a scanned output line that
contains the `Booted` marker, embedded in that line as a nonempty
parenthesised `[A-F0-9-]` token; and it returns `none` when no scanned line
contains the marker together with a matching token. -/
theorem locator_parses_booted_line :
    get_simulator_id ListDevicesResult.fail = none ∧
    (∀ s id, get_simulator_id (ListDevicesResult.ok s) = some id →
      ∃ line ∈ splitOnNL s.data, containsSub bootedMarker line = true ∧
        searchParen line = some id ∧
        ∃ pre post, line = pre ++ '(' :: (id.data ++ ')' :: post) ∧ id.data ≠ [] ∧
          ∀ c ∈ id.data, isIdChar c = true) ∧
    (∀ s, (∀ line ∈ splitOnNL s.data, containsSub bootedMarker line = true →
        searchParen line = none) →
      get_simulator_id (ListDevicesResult.ok s) = none) := by
  refine ⟨rfl, ?_, ?_⟩
  · intro s id h
    obtain ⟨pre, line, post, heq, hpre, hb, hs⟩ := scanLines_some h
    refine ⟨line, ?_, hb, hs, searchParen_sound hs⟩
    rw [heq]
    simp
  · intro s hall
    exact scanLines_none hall

/-- Witness for `locator_parses_booted_line` on a concrete device list. -/
theorem locator_parses_booted_line_witness :
    ∃ line ∈ splitOnNL "    iPhone 15 (ABCD-1234) (Booted)".data,
      containsSub bootedMarker line = true ∧
      searchParen line = some "ABCD-1234" ∧
      ∃ pre post, line = pre ++ '(' :: ("ABCD-1234".data ++ ')' :: post) ∧
        "ABCD-1234".data ≠ [] ∧ ∀ c ∈ "ABCD-1234".data, isIdChar c = true :=
  locator_parses_booted_line.2.1 "    iPhone 15 (ABCD-1234) (Booted)" "ABCD-1234" rfl

/-- C6 counterexample: with a booted device found, an `os.remove` failure
during a per-item cleanup is NOT caught — the run ends as an unhandled
failure even though device location succeeded. -/
theorem per_item_remove_error_propagates :
    get_simulator_id devOk = some "ABCD-1234" ∧
    (main_run devOk oRemoveFail).2.2 = RunResult.uncaughtError :=
  ⟨rfl, rfl⟩

/-- C6 amended: download and import errors are caught where they occur and
become a printed diagnostic plus a `False` return; the per-item `os.remove`
call is the one per-item step whose failure is not caught: whenever every
removal returns normally, no run ends as an unhandled failure. -/
theorem per_item_errors_caught_amended (devList : ListDevicesResult) (o : Oracles)
    (hrm : ∀ c i, o.removeOk c i = true) :
    (∀ e url fp, download_image (some e) url fp =
      (Event.urlretrieve url fp, ["  ❌ Failed to download: " ++ e], false)) ∧
    (∀ e sim fp, import_to_simulator (some e) sim fp =
      (Event.addmedia sim fp, ["  ❌ Failed to import: " ++ e], false)) ∧
    (main_run devList o).2.2 ≠ RunResult.uncaughtError := by
  refine ⟨fun e url fp => rfl, fun e sim fp => rfl, ?_⟩
  have hr := @processCities_noRaise o.download o.importRes o.removeOk
    ((get_simulator_id devList).getD "") IMAGES hrm
  cases hp : pyFalsy (get_simulator_id devList)
  · rw [main_run]
    simp only [hp, Bool.false_eq_true, if_false, hr]
    simp
  · rw [main_run]
    simp [hp]

/-- Witness for `per_item_errors_caught_amended`. -/
theorem per_item_errors_caught_amended_witness :
    (main_run devOk oAll).2.2 ≠ RunResult.uncaughtError :=
  (per_item_errors_caught_amended devOk oAll (fun _ _ => rfl)).2.2

/-- C7: two catalog items with distinct (category, 1-based index) keys
always receive distinct temporary filenames, whatever their URLs. -/
theorem filenames_unique (a b : String × Nat × String)
    (ha : a ∈ catalogItems) (hb : b ∈ catalogItems)
    (hne : (a.1, a.2.1) ≠ (b.1, b.2.1)) :
    filename a.1 a.2.1 ≠ filename b.1 b.2.1 := by
  intro hf
  exact hne (congrArg (fun t : String × Nat × String => (t.1, t.2.1))
    (filename_inj_on ha hb hf))

/-- Witness for `filenames_unique`: berlin items 2 and 8 share one URL yet
get different filenames. -/
theorem filenames_unique_witness :
    ("berlin", 2, "https://images.unsplash.com/photo-1587330979470-3595ac045ab7?w=800")
      ∈ catalogItems ∧
    ("berlin", 8, "https://images.unsplash.com/photo-1587330979470-3595ac045ab7?w=800")
      ∈ catalogItems ∧
    filename "berlin" 2 ≠ filename "berlin" 8 :=
  ⟨by decide, by decide,
   filenames_unique
     ("berlin", 2, "https://images.unsplash.com/photo-1587330979470-3595ac045ab7?w=800")
     ("berlin", 8, "https://images.unsplash.com/photo-1587330979470-3595ac045ab7?w=800")
     (by decide) (by decide) (by decide)⟩

/-- C8 counterexample: a run that passes device location can still exit
with status 1 — an uncaught per-item `os.remove` failure ends the process
abnormally. -/
theorem exit_zero_counterexample :
    pyFalsy (get_simulator_id devOk) = false ∧
    exitCode (main_run devOk oRemoveFail).2.2 = 1 :=
  ⟨rfl, rfl⟩

/-- C8 amended: for every run that passes device location and in which no
per-item `os.remove` call fails, the run completes: the `os.rmdir` attempt
happens, its outcome never affects the result (best effort), the summary
line with the final total is printed, and the exit status is 0. -/
theorem summary_and_exit_amended (devList : ListDevicesResult) (o : Oracles)
    (hrm : ∀ c i, o.removeOk c i = true)
    (hdev : pyFalsy (get_simulator_id devList) = false) :
    ∃ tot, (main_run devList o).2.2 = RunResult.completed tot ∧
      exitCode (main_run devList o).2.2 = 0 ∧
      Event.rmdir temp_dir ∈ (main_run devList o).1 ∧
      ("\n✨ Done! Imported " ++ toString tot ++ "/30 images to iOS Simulator.")
        ∈ (main_run devList o).2.1 ∧
      ∀ b : Bool, main_run devList ⟨o.download, o.importRes, o.removeOk, b⟩ =
        main_run devList o := by
  have hr := @processCities_noRaise o.download o.importRes o.removeOk
    ((get_simulator_id devList).getD "") IMAGES hrm
  refine ⟨(processCities o.download o.importRes o.removeOk
      ((get_simulator_id devList).getD "") IMAGES).2.2.1, ?_, ?_, ?_, ?_, fun b => rfl⟩
  · rw [main_run]
    simp only [hdev, Bool.false_eq_true, if_false, hr]
  · rw [main_run]
    simp only [hdev, Bool.false_eq_true, if_false, hr]
    rfl
  · rw [main_run]
    simp only [hdev, Bool.false_eq_true, if_false, hr]
    simp
  · rw [main_run]
    simp only [hdev, Bool.false_eq_true, if_false, hr]
    simp

/-- Witness for `summary_and_exit_amended` on the all-success run. -/
theorem summary_and_exit_amended_witness :
    ∃ tot, (main_run devOk oAll).2.2 = RunResult.completed tot ∧
      exitCode (main_run devOk oAll).2.2 = 0 ∧
      Event.rmdir temp_dir ∈ (main_run devOk oAll).1 ∧
      ("\n✨ Done! Imported " ++ toString tot ++ "/30 images to iOS Simulator.")
        ∈ (main_run devOk oAll).2.1 ∧
      ∀ b : Bool, main_run devOk ⟨oAll.download, oAll.importRes, oAll.removeOk, b⟩ =
        main_run devOk oAll :=
  summary_and_exit_amended devOk oAll (fun _ _ => rfl) rfl

/-- C9: the static catalog contains duplicate URLs within the berlin list
(1-based indices 2 and 8 are equal) and across categories (a berlin URL
also occurs in the copenhagen list), while the three category labels are
unique. -/
theorem catalog_duplicate_urls :
    (∃ u, berlin_urls.get? 1 = some u ∧ berlin_urls.get? 7 = some u) ∧
    (∃ u, u ∈ berlin_urls ∧ u ∈ copenhagen_urls) ∧
    IMAGES.map Prod.fst = ["copenhagen", "paris", "berlin"] ∧
    (IMAGES.map Prod.fst).Nodup :=
  ⟨⟨"https://images.unsplash.com/photo-1587330979470-3595ac045ab7?w=800",
     by decide, by decide⟩,
   ⟨"https://images.unsplash.com/photo-1599946347371-68eb71b16afc?w=800",
     by decide, by decide⟩,
   by decide, by decide⟩

/-- C10: any identifier the locator returns is a nonempty string over the
alphabet A–F, 0–9, '-'; it is extracted from the first scanned line that
contains the case-sensitive `Booted` marker and has a matching
parenthesised token (all earlier lines yield nothing); and output none of
whose lines contains the exact marker — e.g. a lowercase `(booted)`
variant — yields `none`. -/
theorem locator_id_shape :
    (∀ s id, get_simulator_id (ListDevicesResult.ok s) = some id →
      id ≠ "" ∧ ∀ c ∈ id.data, isIdChar c = true) ∧
    (∀ s id, get_simulator_id (ListDevicesResult.ok s) = some id →
      ∃ pre line post, splitOnNL s.data = pre ++ line :: post ∧
        (∀ l ∈ pre, containsSub bootedMarker l = false ∨ searchParen l = none) ∧
        containsSub bootedMarker line = true ∧ searchParen line = some id) ∧
    (∀ s, (∀ l ∈ splitOnNL s.data, containsSub bootedMarker l = false) →
      get_simulator_id (ListDevicesResult.ok s) = none) ∧
    get_simulator_id (ListDevicesResult.ok "    iPhone 15 (ABCD-1234) (booted)") = none := by
  refine ⟨?_, ?_, ?_, rfl⟩
  · intro s id h
    obtain ⟨pre, line, post, heq, hpre, hb, hs⟩ := scanLines_some h
    obtain ⟨p1, p2, hl, hne, hall⟩ := searchParen_sound hs
    refine ⟨?_, hall⟩
    intro he
    apply hne
    rw [he]
  · intro s id h
    exact scanLines_some h
  · intro s hall
    exact scanLines_none fun l hl hb => absurd hb (by rw [hall l hl]; simp)

/-- Witness for `locator_id_shape` on a concrete device list. -/
theorem locator_id_shape_witness :
    "ABCD-1234" ≠ "" ∧ ∀ c ∈ "ABCD-1234".data, isIdChar c = true :=
  locator_id_shape.1 "    iPhone 15 (ABCD-1234) (Booted)" "ABCD-1234" rfl

end Wanderlog
